import Mathlib

/-!
# Verification of the OpenAPI-SQLAlchemy factory/caching core

A shallow embedding of `openapi_sqlalchemy/__init__.py`:

* `init_model_factory` validates the specification (requires the key path
  `components.schemas`) and returns a memoizing model factory: the Python
  code binds `(schemas, base)` onto the model-building collaborator with
  functools and wraps the bound function with an unbounded lru cache.
* `init_json` and `init_yaml` are the file-based convenience entry points.

Python dictionaries are embedded as ordered association lists; the first
entry with a matching key wins (Python dict literals have unique keys).
Python values are either mappings or opaque non-mapping leaves.  Python
exceptions are an explicit `PyError` type and fallible code returns
`Except`.  The model-building collaborator `model_factory.model_factory`
is external to this module and is treated as an opaque parameter
`collab : String → Value → B → Except E K`, exactly as the module treats
it (it only binds arguments and caches).  The lru cache is embedded as
explicit state: a `FactoryState` carrying the bound `schemas` and `base`
and the name → class cache, with one step `cached_model_factory_call`
per factory invocation.  Each step also reports the list of collaborator
invocations it performed (each with the arguments the collaborator
received), so call-count properties are statable.

Possibly-unbound Python local variables (`Base` in `init_json` and
`init_yaml`, the undefined name `Loader` in `init_json`) are embedded as
`Option` values: `none` means the name is unbound and reading it raises
`NameError`.
-/

namespace OpenapiSqlalchemy

/-- A Python value as this module observes it: either a mapping (an ordered
association list) or an opaque non-mapping leaf (schema definitions, model
classes and the like are never inspected by this module).  Membership tests
on a leaf raise `TypeError`, as `in` does on a non-container Python value. -/
inductive Value : Type where
  | leaf : Nat → Value
  | dict : List (String × Value) → Value

/-- Modelled from the spec: the error taxonomy.  The structural
"malformed specification" error is `exceptions.MalformedSpecificationError`,
defined in the `exceptions` module of the package; the spec describes it as
a structural specification error distinct from a generic lookup failure, so
it is a constructor of its own, separate from `keyError`.  The remaining
constructors embed the Python built-in errors the entry points can raise. -/
inductive PyError : Type where
  | malformedSpecificationError : String → PyError
  | keyError : String → PyError
  | typeError : String → PyError
  | nameError : String → PyError
  | importError : String → PyError
  | ioError : String → PyError

/-- Key membership in an embedded Python dict (`k in d`). -/
def dictContains (d : List (String × Value)) (k : String) : Bool :=
  d.any fun p => p.1 == k

/-- Key lookup in an embedded Python dict (`d[k]` when present). -/
def dictGet : List (String × Value) → String → Option Value
  | [], _ => none
  | p :: d, k => bif p.1 == k then some p.2 else dictGet d k

/-- Python `d.get(k, dflt)`. -/
def dictGetD (d : List (String × Value)) (k : String) (dflt : Value) : Value :=
  (dictGet d k).getD dflt

/-- The state of one factory returned by `init_model_factory`: the
`(schemas, base)` pair bound onto the collaborator, plus the cache of the
unbounded lru cache wrapper, mapping each already-computed argument `name`
to the class object stored for it. -/
structure FactoryState (B K : Type) : Type where
  schemas : Value
  base : B
  cache : List (String × K)

/-- Message of the structural error raised when `components` is absent. -/
def components_required_message : String :=
  "\"components\" is a required key in the specification."

/-- Message of the structural error raised when `components` is present but
`schemas` is absent from it. -/
def schemas_required_message : String :=
  "\"schemas\" is a required key in the components of the specification."

/-- Shallow embedding of `init_model_factory`: validate that the
specification has the key path `components.schemas`, then return the
factory with `(schemas, base)` bound and an empty cache. -/
def init_model_factory {B K : Type} (base : B) (spec : List (String × Value)) :
    Except PyError (FactoryState B K) :=
  if !dictContains spec "components" then
    Except.error (PyError.malformedSpecificationError components_required_message)
  else
    match dictGetD spec "components" (Value.dict []) with
    | Value.leaf _ =>
        Except.error (PyError.typeError "argument of type is not a container")
    | Value.dict components =>
        if !dictContains components "schemas" then
          Except.error (PyError.malformedSpecificationError schemas_required_message)
        else
          Except.ok
            { schemas := dictGetD components "schemas" (Value.dict [])
              base := base
              cache := [] }

/-- Cache lookup of the lru cache wrapper: first entry with a matching
key, if any. -/
def cacheLookup {K : Type} : List (String × K) → String → Option K
  | [], _ => none
  | p :: c, n => bif p.1 == n then some p.2 else cacheLookup c n

/-- One invocation of the factory returned by `init_model_factory` with a
schema name.  On a cache hit the stored class object is returned and the
collaborator is not invoked; on a miss the collaborator is invoked once
with the name and the bound `(schemas, base)` pair, and on success its
result is stored.  A raising invocation stores nothing (the lru cache does
not memoize exceptions) and the error propagates unchanged.  The third
component records the collaborator invocations performed by this call,
each with the arguments the collaborator received. -/
def cached_model_factory_call {B K E : Type}
    (collab : String → Value → B → Except E K)
    (st : FactoryState B K) (name : String) :
    Except E K × FactoryState B K × List (String × Value × B) :=
  match cacheLookup st.cache name with
  | some cls => (Except.ok cls, st, [])
  | none =>
      match collab name st.schemas st.base with
      | Except.ok cls =>
          (Except.ok cls,
           { st with cache := st.cache ++ [(name, cls)] },
           [(name, st.schemas, st.base)])
      | Except.error e =>
          (Except.error e, st, [(name, st.schemas, st.base)])

/-- A sequence of factory invocations: the per-call results, the final
state, and the concatenated collaborator invocation log. -/
def cached_model_factory_run {B K E : Type}
    (collab : String → Value → B → Except E K) :
    FactoryState B K → List String →
    List (Except E K) × FactoryState B K × List (String × Value × B)
  | st, [] => ([], st, [])
  | st, n :: ns =>
      let c := cached_model_factory_call collab st n
      let r := cached_model_factory_run collab c.2.1 ns
      (c.1 :: r.1, r.2.1, c.2.2 ++ r.2.2)

/-- `dictGet` hitting a key means `dictContains` holds for it. -/
theorem dictContains_of_dictGet {d : List (String × Value)} {k : String}
    {v : Value} (h : dictGet d k = some v) : dictContains d k = true := by
  induction d with
  | nil => simp [dictGet] at h
  | cons p d ih =>
      revert h
      simp only [dictGet, dictContains, List.any_cons]
      cases hpk : p.1 == k with
      | true => intro _; simp [hpk]
      | false =>
          intro h
          simp only [cond_false] at h
          simpa [dictContains, hpk] using ih h

/-- `dictGetD` returns the stored value when the key is present. -/
theorem dictGetD_of_dictGet {d : List (String × Value)} {k : String}
    {v : Value} (dflt : Value) (h : dictGet d k = some v) :
    dictGetD d k dflt = v := by
  simp [dictGetD, h]

/-- C3: a specification mapping without the key `components` makes
`init_model_factory` fail with the structural malformed-specification
error (not a generic key lookup error); its message names `components`,
and no factory is returned. -/
theorem init_model_factory_missing_components {B K : Type} (base : B)
    (spec : List (String × Value)) (h : dictContains spec "components" = false) :
    init_model_factory (K := K) base spec =
      Except.error (PyError.malformedSpecificationError components_required_message) ∧
    (∃ pre post, components_required_message = pre ++ "components" ++ post) := by
  refine ⟨?_, "\"", "\" is a required key in the specification.", rfl⟩
  simp [init_model_factory, h]

/-- Witness for C3: the empty specification. -/
theorem init_model_factory_missing_components_witness :
    init_model_factory (K := Nat) (0 : Nat) [] =
      Except.error (PyError.malformedSpecificationError components_required_message) :=
  (init_model_factory_missing_components (0 : Nat) [] rfl).1

/-- C4: a specification whose `components` mapping is present but lacks the
key `schemas` makes `init_model_factory` fail with the structural
malformed-specification error naming `schemas`, and that message differs
from the one raised when `components` itself is missing. -/
theorem init_model_factory_missing_schemas {B K : Type} (base : B)
    (spec : List (String × Value)) (components : List (String × Value))
    (hc : dictGet spec "components" = some (Value.dict components))
    (hs : dictContains components "schemas" = false) :
    init_model_factory (K := K) base spec =
      Except.error (PyError.malformedSpecificationError schemas_required_message) ∧
    (∃ pre post, schemas_required_message = pre ++ "schemas" ++ post) ∧
    schemas_required_message ≠ components_required_message := by
  refine ⟨?_, ⟨"\"", "\" is a required key in the components of the specification.", rfl⟩, ?_⟩
  · simp [init_model_factory, dictContains_of_dictGet hc,
      dictGetD_of_dictGet _ hc, hs]
  · intro h
    exact absurd (congrArg String.length h) (by decide)

/-- Witness for C4: `spec = [("components", {})]`. -/
theorem init_model_factory_missing_schemas_witness :
    init_model_factory (K := Nat) (0 : Nat) [("components", Value.dict [])] =
      Except.error (PyError.malformedSpecificationError schemas_required_message) :=
  (init_model_factory_missing_schemas (0 : Nat) [("components", Value.dict [])]
    [] rfl rfl).1

/-- C5: a specification with the key path `components.schemas` present
(the `schemas` mapping may be empty) makes `init_model_factory` succeed
and return a factory: the callable state with `(schemas, base)` bound and
an empty cache, on which `cached_model_factory_call` maps a schema name to
a model class. -/
theorem init_model_factory_success {B K : Type} (base : B)
    (spec : List (String × Value)) (components : List (String × Value))
    (hc : dictGet spec "components" = some (Value.dict components))
    (hs : dictContains components "schemas" = true) :
    init_model_factory (K := K) base spec =
      Except.ok
        { schemas := dictGetD components "schemas" (Value.dict [])
          base := base
          cache := [] } := by
  simp [init_model_factory, dictContains_of_dictGet hc,
    dictGetD_of_dictGet _ hc, hs]

/-- Witness for C5: `spec = [("components", [("schemas", {})])]`, an empty
schemas mapping. -/
theorem init_model_factory_success_witness :
    init_model_factory (K := Nat) (0 : Nat)
        [("components", Value.dict [("schemas", Value.dict [])])] =
      Except.ok { schemas := Value.dict [], base := (0 : Nat), cache := [] } :=
  init_model_factory_success (0 : Nat)
    [("components", Value.dict [("schemas", Value.dict [])])]
    [("schemas", Value.dict [])] rfl rfl

/-- Unfolding a run one call at a time. -/
theorem cached_model_factory_run_cons {B K E : Type}
    (collab : String → Value → B → Except E K) (st : FactoryState B K)
    (n : String) (ns : List String) :
    cached_model_factory_run collab st (n :: ns) =
      ((cached_model_factory_call collab st n).1 ::
         (cached_model_factory_run collab
           (cached_model_factory_call collab st n).2.1 ns).1,
       (cached_model_factory_run collab
         (cached_model_factory_call collab st n).2.1 ns).2.1,
       (cached_model_factory_call collab st n).2.2 ++
         (cached_model_factory_run collab
           (cached_model_factory_call collab st n).2.1 ns).2.2) := rfl

/-- A cache hit returns the stored class and performs no collaborator
invocation. -/
theorem call_hit {B K E : Type} (collab : String → Value → B → Except E K)
    {st : FactoryState B K} {n : String} {cls : K}
    (hc : cacheLookup st.cache n = some cls) :
    cached_model_factory_call collab st n = (Except.ok cls, st, []) := by
  simp [cached_model_factory_call, hc]

/-- A cache miss with a succeeding collaborator stores and returns its
result, and performs exactly one invocation. -/
theorem call_miss_ok {B K E : Type} {collab : String → Value → B → Except E K}
    {st : FactoryState B K} {n : String} {cls : K}
    (hc : cacheLookup st.cache n = none)
    (hcol : collab n st.schemas st.base = Except.ok cls) :
    cached_model_factory_call collab st n =
      (Except.ok cls, { st with cache := st.cache ++ [(n, cls)] },
       [(n, st.schemas, st.base)]) := by
  simp [cached_model_factory_call, hc, hcol]

/-- A cache miss with a raising collaborator leaves the state unchanged
and propagates the error, after exactly one invocation. -/
theorem call_miss_error {B K E : Type} {collab : String → Value → B → Except E K}
    {st : FactoryState B K} {n : String} {e : E}
    (hc : cacheLookup st.cache n = none)
    (hcol : collab n st.schemas st.base = Except.error e) :
    cached_model_factory_call collab st n =
      (Except.error e, st, [(n, st.schemas, st.base)]) := by
  simp [cached_model_factory_call, hc, hcol]

/-- Lookup in a concatenation of caches tries the left cache first. -/
theorem cacheLookup_append {K : Type} (c1 c2 : List (String × K)) (n : String) :
    cacheLookup (c1 ++ c2) n =
      ((cacheLookup c1 n).orElse fun _ => cacheLookup c2 n) := by
  induction c1 with
  | nil => simp [cacheLookup]
  | cons p c ih =>
      simp only [List.cons_append, cacheLookup]
      cases hpn : p.1 == n <;> simp [ih]

/-- `init_model_factory` always returns a factory with an empty cache. -/
theorem init_model_factory_cache_empty {B K : Type} (base : B)
    (spec : List (String × Value)) (st : FactoryState B K)
    (h : init_model_factory base spec = Except.ok st) : st.cache = [] := by
  unfold init_model_factory at h
  split at h
  · simp at h
  · split at h
    · simp at h
    · split at h
      · simp at h
      · injection h with h
        subst h
        rfl

/-- During any run whose names the collaborator handles successfully, the
collaborator is invoked at most once per distinct name: not at all when the
name is already cached, at most once otherwise. -/
theorem run_collab_count_le {B K E : Type}
    (collab : String → Value → B → Except E K) (n : String) :
    ∀ (ns : List String) (st : FactoryState B K),
      (∀ m ∈ ns, (collab m st.schemas st.base).isOk = true) →
      ((cached_model_factory_run collab st ns).2.2.countP fun e => e.1 == n) ≤
        (if (cacheLookup st.cache n).isSome then 0 else 1) := by
  intro ns
  induction ns with
  | nil =>
      intro st _
      simp only [cached_model_factory_run, List.countP_nil]
      exact Nat.zero_le _
  | cons m ns ih =>
      intro st h
      have hm : (collab m st.schemas st.base).isOk = true :=
        h m (List.mem_cons_self m ns)
      have hrest : ∀ m' ∈ ns, (collab m' st.schemas st.base).isOk = true :=
        fun m' hm' => h m' (List.mem_cons_of_mem m hm')
      rw [cached_model_factory_run_cons]
      cases hc : cacheLookup st.cache m with
      | some cls =>
          rw [call_hit collab hc]
          simpa using ih st hrest
      | none =>
          cases hcol : collab m st.schemas st.base with
          | error e =>
              rw [hcol] at hm
              simp [Except.isOk, Except.toBool] at hm
          | ok cls =>
              rw [call_miss_ok hc hcol]
              have hih := ih { st with cache := st.cache ++ [(m, cls)] } hrest
              cases hmn : m == n with
              | true =>
                  have hmn' : m = n := eq_of_beq hmn
                  subst hmn'
                  have hl1 : cacheLookup
                      ({ st with cache := st.cache ++ [(m, cls)] } :
                        FactoryState B K).cache m = some cls := by
                    simp [cacheLookup_append, hc, cacheLookup]
                  rw [hl1] at hih
                  simp only [Option.isSome_some, if_true] at hih
                  have ht2 : List.countP (fun e => e.1 == m)
                      (cached_model_factory_run collab
                        { st with cache := st.cache ++ [(m, cls)] } ns).2.2 = 0 := by
                    omega
                  simp [List.countP_append, List.countP_cons, ht2, hc]
              | false =>
                  have hl1 : cacheLookup
                      ({ st with cache := st.cache ++ [(m, cls)] } :
                        FactoryState B K).cache n = cacheLookup st.cache n := by
                    simp only [cacheLookup_append]
                    cases cacheLookup st.cache n with
                    | some v => rfl
                    | none => simp [cacheLookup, hmn]
                  rw [hl1] at hih
                  simp only [List.countP_append, List.countP_cons, List.countP_nil, hmn]
                  simpa using hih

/-- C1: for a factory returned by `init_model_factory` and a name the
collaborator handles (a schema name present in `schemas`), calling the
factory twice with that name invokes the collaborator exactly once — the
log holds the single invocation, with the bound arguments — and both calls
return the one class object `c` stored in the cache (the cached object is
returned itself, so the two results are identical).  Moreover, over any
run of calls the collaborator succeeds on, it is invoked at most once for
any distinct name across the factory's lifetime. -/
theorem factory_memoizes_same_name {B K E : Type}
    (collab : String → Value → B → Except E K) (base : B)
    (spec : List (String × Value)) (st : FactoryState B K)
    (hinit : init_model_factory base spec = Except.ok st)
    (n : String) (c : K) (hc : collab n st.schemas st.base = Except.ok c) :
    (cached_model_factory_run collab st [n, n] =
      ([Except.ok c, Except.ok c], { st with cache := [(n, c)] },
       [(n, st.schemas, st.base)])) ∧
    (∀ ns : List String, (∀ m ∈ ns, (collab m st.schemas st.base).isOk = true) →
      ((cached_model_factory_run collab st ns).2.2.countP fun e => e.1 == n) ≤ 1) := by
  have hcache : st.cache = [] := init_model_factory_cache_empty base spec st hinit
  constructor
  · have h0 : cacheLookup st.cache n = none := by rw [hcache]; rfl
    have h1 : cacheLookup
        ({ st with cache := st.cache ++ [(n, c)] } : FactoryState B K).cache n =
        some c := by
      rw [hcache]
      simp [cacheLookup]
    rw [cached_model_factory_run_cons, call_miss_ok h0 hc]
    rw [cached_model_factory_run_cons, call_hit collab h1]
    simp [cached_model_factory_run, hcache]
  · intro ns hok
    refine le_trans (run_collab_count_le collab n ns st hok) ?_
    split <;> omega

/-- Witness for C1: a two-element cache-hit run on a concrete factory. -/
theorem factory_memoizes_same_name_witness :
    cached_model_factory_run
        (fun _ _ _ => (Except.ok 7 : Except Nat Nat))
        { schemas := Value.dict [], base := (5 : Nat), cache := [] }
        ["table 1", "table 1"] =
      ([Except.ok 7, Except.ok 7],
       { schemas := Value.dict [], base := (5 : Nat), cache := [("table 1", 7)] },
       [("table 1", Value.dict [], 5)]) :=
  (factory_memoizes_same_name (fun _ _ _ => (Except.ok 7 : Except Nat Nat))
    (5 : Nat) [("components", Value.dict [("schemas", Value.dict [])])]
    { schemas := Value.dict [], base := (5 : Nat), cache := [] }
    rfl "table 1" 7 rfl).1

/-- C2: for a factory returned by `init_model_factory` and two distinct
names the collaborator handles, calling the factory with the first name
then the second invokes the collaborator exactly twice — once per name,
each invocation receiving that name together with the bound
`(schemas, base)` pair. -/
theorem factory_distinct_names {B K E : Type}
    (collab : String → Value → B → Except E K) (base : B)
    (spec : List (String × Value)) (st : FactoryState B K)
    (hinit : init_model_factory base spec = Except.ok st)
    (n1 n2 : String) (hne : n1 ≠ n2) (c1 c2 : K)
    (h1 : collab n1 st.schemas st.base = Except.ok c1)
    (h2 : collab n2 st.schemas st.base = Except.ok c2) :
    cached_model_factory_run collab st [n1, n2] =
      ([Except.ok c1, Except.ok c2],
       { st with cache := [(n1, c1), (n2, c2)] },
       [(n1, st.schemas, st.base), (n2, st.schemas, st.base)]) := by
  have hcache : st.cache = [] := init_model_factory_cache_empty base spec st hinit
  have hb : (n1 == n2) = false := beq_eq_false_iff_ne.mpr hne
  have h0 : cacheLookup st.cache n1 = none := by rw [hcache]; rfl
  have h1' : cacheLookup
      ({ st with cache := st.cache ++ [(n1, c1)] } : FactoryState B K).cache n2 =
      none := by
    rw [hcache]
    simp [cacheLookup, hb]
  rw [cached_model_factory_run_cons, call_miss_ok h0 h1]
  rw [cached_model_factory_run_cons, call_miss_ok h1' h2]
  simp [cached_model_factory_run, hcache]

/-- Witness for C2: two distinct names on a concrete factory give two
collaborator invocations. -/
theorem factory_distinct_names_witness :
    cached_model_factory_run
        (fun nm _ _ => (Except.ok nm : Except Nat String))
        { schemas := Value.dict [], base := (0 : Nat), cache := [] }
        ["table 1", "table 2"] =
      ([Except.ok "table 1", Except.ok "table 2"],
       { schemas := Value.dict [], base := (0 : Nat),
         cache := [("table 1", "table 1"), ("table 2", "table 2")] },
       [("table 1", Value.dict [], 0), ("table 2", Value.dict [], 0)]) :=
  factory_distinct_names (fun nm _ _ => (Except.ok nm : Except Nat String))
    (0 : Nat) [("components", Value.dict [("schemas", Value.dict [])])]
    { schemas := Value.dict [], base := (0 : Nat), cache := [] }
    rfl "table 1" "table 2" (by decide) "table 1" "table 2" rfl rfl

/-- C7: when the collaborator raises for a name that is not cached (for
instance a name absent from `schemas`), the factory returns that very
error value, unchanged — nothing is caught, wrapped, translated or
retried within the call. -/
theorem factory_propagates_collab_error {B K E : Type}
    (collab : String → Value → B → Except E K) (st : FactoryState B K)
    (n : String) (e : E) (hcache : cacheLookup st.cache n = none)
    (he : collab n st.schemas st.base = Except.error e) :
    cached_model_factory_call collab st n =
      (Except.error e, st, [(n, st.schemas, st.base)]) :=
  call_miss_error hcache he

/-- Witness for C7: a collaborator error value reaches the caller as is. -/
theorem factory_propagates_collab_error_witness :
    cached_model_factory_call (fun _ _ _ => (Except.error 3 : Except Nat Nat))
        { schemas := Value.dict [], base := (0 : Nat), cache := [] } "missing" =
      (Except.error 3,
       { schemas := Value.dict [], base := (0 : Nat), cache := [] },
       [("missing", Value.dict [], 0)]) :=
  factory_propagates_collab_error (fun _ _ _ => (Except.error 3 : Except Nat Nat))
    { schemas := Value.dict [], base := (0 : Nat), cache := [] }
    "missing" 3 rfl rfl

/-- C9: a raising call is not memoized: the cache (indeed the whole
factory state) is unchanged by the failed call, and a second call with
the same name invokes the collaborator again — the log holds two
invocations for the name. -/
theorem factory_error_not_memoized {B K E : Type}
    (collab : String → Value → B → Except E K) (st : FactoryState B K)
    (n : String) (e : E) (hcache : cacheLookup st.cache n = none)
    (he : collab n st.schemas st.base = Except.error e) :
    cached_model_factory_run collab st [n, n] =
      ([Except.error e, Except.error e], st,
       [(n, st.schemas, st.base), (n, st.schemas, st.base)]) := by
  rw [cached_model_factory_run_cons, call_miss_error hcache he]
  rw [cached_model_factory_run_cons, call_miss_error hcache he]
  simp [cached_model_factory_run]

/-- Witness for C9: a failing name is retried on the second call. -/
theorem factory_error_not_memoized_witness :
    cached_model_factory_run (fun _ _ _ => (Except.error 3 : Except Nat Nat))
        { schemas := Value.dict [], base := (0 : Nat), cache := [] }
        ["missing", "missing"] =
      ([Except.error 3, Except.error 3],
       { schemas := Value.dict [], base := (0 : Nat), cache := [] },
       [("missing", Value.dict [], 0), ("missing", Value.dict [], 0)]) :=
  factory_error_not_memoized (fun _ _ _ => (Except.error 3 : Except Nat Nat))
    { schemas := Value.dict [], base := (0 : Nat), cache := [] }
    "missing" 3 rfl rfl

/-- The possibly-unbound local `Base` of `init_json`: the source assigns
it only inside the `base is None` branch, so it is unbound whenever a
pre-existing base is supplied. -/
def init_json_Base {B : Type} (newBase : B) (base : Option B) : Option B :=
  if base.isNone then some newBase else none

/-- Message of the error raised by `init_yaml` when pyyaml is missing. -/
def yaml_import_message : String :=
  "Using init_yaml requires the pyyaml package. Try `pip install pyyaml`."

/-- Shallow embedding of `init_json`.  The filesystem is embedded as a map
from filename to file contents (`none` meaning `open` raises); `json_load`
embeds the external `json.load`, given the file contents and the value
passed for its `Loader` keyword argument.  Possibly-unbound locals are
`Option` values read through a match, and reading an unbound one raises
`NameError` — in particular the name `Loader` is defined nowhere in the
module, so evaluating the `Loader=Loader` argument always raises. -/
def init_json {B K : Type}
    (json_load : String → Unit → Except PyError (List (String × Value)))
    (fs : String → Option String) (newBase : B)
    (spec_filename : String) (base : Option B) :
    Except PyError (B × FactoryState B K) :=
  let Base : Option B := init_json_Base newBase base
  match fs spec_filename with
  | none => Except.error (PyError.ioError spec_filename)
  | some contents =>
      let Loader : Option Unit := none
      match Loader with
      | none => Except.error (PyError.nameError "Loader")
      | some loaderVal =>
          match json_load contents loaderVal with
          | Except.error e => Except.error e
          | Except.ok spec =>
              match Base with
              | none => Except.error (PyError.nameError "Base")
              | some b =>
                  match init_model_factory b spec with
                  | Except.error e => Except.error e
                  | Except.ok mf => Except.ok (b, mf)

/-- Shallow embedding of `init_yaml`.  `yamlAvailable` embeds whether the
optional pyyaml dependency can be acquired; `yaml_load` embeds the
external `yaml.load` applied with `yaml.Loader` (well defined once the
acquisition succeeded).  As in the source, the local `Base` is assigned
only inside the `base is None` branch, so reading it raises `NameError`
whenever a pre-existing base was supplied. -/
def init_yaml {B K : Type} (yamlAvailable : Bool)
    (yaml_load : String → Except PyError (List (String × Value)))
    (fs : String → Option String) (newBase : B)
    (spec_filename : String) (base : Option B) :
    Except PyError (B × FactoryState B K) :=
  if !yamlAvailable then
    Except.error (PyError.importError yaml_import_message)
  else
    let Base : Option B := if base.isNone then some newBase else none
    match fs spec_filename with
    | none => Except.error (PyError.ioError spec_filename)
    | some contents =>
        match yaml_load contents with
        | Except.error e => Except.error e
        | Except.ok spec =>
            match Base with
            | none => Except.error (PyError.nameError "Base")
            | some b =>
                match init_model_factory b spec with
                | Except.error e => Except.error e
                | Except.ok mf => Except.ok (b, mf)

/-- A concrete one-file filesystem for the entry-point theorems. -/
def demoFs : String → Option String := fun _ => some "contents"

/-- A concrete parsed specification with an empty schemas mapping. -/
def demoSpec : List (String × Value) :=
  [("components", Value.dict [("schemas", Value.dict [])])]

/-- C10: `init_json` never returns successfully on any input: every run
that reaches the JSON load trips over the undefined name `Loader`, and
with a base supplied the local `Base` is unbound at its point of use, so
the promised `(base, factory)` pair is unreachable. -/
theorem init_json_never_succeeds {B K : Type}
    (json_load : String → Unit → Except PyError (List (String × Value)))
    (fs : String → Option String) (newBase : B)
    (spec_filename : String) (base : Option B) :
    (∀ r : B × FactoryState B K,
        init_json json_load fs newBase spec_filename base ≠ Except.ok r) ∧
    (∀ contents, fs spec_filename = some contents →
        init_json (K := K) json_load fs newBase spec_filename base =
          Except.error (PyError.nameError "Loader")) ∧
    (base ≠ none → init_json_Base newBase base = none) := by
  refine ⟨?_, ?_, ?_⟩
  · intro r h
    cases hf : fs spec_filename <;> simp [init_json, hf] at h
  · intro contents hf
    simp [init_json, hf]
  · intro hb
    cases base with
    | none => exact absurd rfl hb
    | some b => rfl

/-- Witness for C10: a readable file and a supplied base still end in the
`NameError` for `Loader`, and the local `Base` is left unbound. -/
theorem init_json_never_succeeds_witness :
    init_json (K := Nat) (fun _ _ => Except.ok demoSpec) demoFs (0 : Nat)
        "spec.json" (some 1) = Except.error (PyError.nameError "Loader") ∧
    init_json_Base (0 : Nat) (some (1 : Nat)) = none :=
  ⟨(init_json_never_succeeds (fun _ _ => Except.ok demoSpec) demoFs (0 : Nat)
      "spec.json" (some 1)).2.1 "contents" rfl,
   (init_json_never_succeeds (K := Nat) (fun _ _ => Except.ok demoSpec) demoFs
      (0 : Nat) "spec.json" (some 1)).2.2 (by decide)⟩

/-- C8: when the optional pyyaml dependency is unavailable, `init_yaml`
fails with the missing-optional-dependency error, whose message says how
to obtain the package, and it does so before opening or reading the
specification file — the result is the same for every filesystem, even
one where the file does not exist.  Only this entry point raises that
error: `init_json` never produces an `importError`. -/
theorem init_yaml_missing_dependency {B K : Type}
    (yaml_load : String → Except PyError (List (String × Value)))
    (fs : String → Option String) (newBase : B)
    (spec_filename : String) (base : Option B) :
    init_yaml (K := K) false yaml_load fs newBase spec_filename base =
      Except.error (PyError.importError yaml_import_message) ∧
    (∃ pre post, yaml_import_message = pre ++ "pip install pyyaml" ++ post) ∧
    (∀ (json_load : String → Unit → Except PyError (List (String × Value)))
        (m : String),
        init_json (K := K) json_load fs newBase spec_filename base ≠
          Except.error (PyError.importError m)) := by
  refine ⟨rfl,
    ⟨"Using init_yaml requires the pyyaml package. Try `", "`.", rfl⟩, ?_⟩
  intro json_load m h
  cases hf : fs spec_filename <;> simp [init_json, hf] at h

/-- Witness for C8: with pyyaml unavailable and no file on disk at all,
`init_yaml` still reports the missing dependency. -/
theorem init_yaml_missing_dependency_witness :
    init_yaml (K := Nat) false (fun _ => Except.ok demoSpec) (fun _ => none)
        (0 : Nat) "spec.yaml" none =
      Except.error (PyError.importError yaml_import_message) :=
  (init_yaml_missing_dependency (K := Nat) (fun _ => Except.ok demoSpec)
      (fun _ => none) (0 : Nat) "spec.yaml" none).1

/-- C6 (behavior of the code at the failing inputs): the file-based entry
points do not honor the documented contract.  `init_json` raises
`NameError` for the undefined name `Loader` whether or not a base is
supplied; `init_yaml` raises `NameError` for its unbound local `Base`
whenever a pre-existing base is supplied; only `init_yaml` called without
a base returns the promised `(base, factory)` pair, built with a fresh
default base. -/
theorem init_file_entry_points_defect :
    init_json (K := Nat) (fun _ _ => Except.ok demoSpec) demoFs (0 : Nat)
        "spec.json" none = Except.error (PyError.nameError "Loader") ∧
    init_json (K := Nat) (fun _ _ => Except.ok demoSpec) demoFs (0 : Nat)
        "spec.json" (some 1) = Except.error (PyError.nameError "Loader") ∧
    init_yaml (K := Nat) true (fun _ => Except.ok demoSpec) demoFs (0 : Nat)
        "spec.yaml" (some 1) = Except.error (PyError.nameError "Base") ∧
    init_yaml (K := Nat) true (fun _ => Except.ok demoSpec) demoFs (0 : Nat)
        "spec.yaml" none =
      Except.ok (0, { schemas := Value.dict [], base := 0, cache := [] }) :=
  ⟨rfl, rfl, rfl, rfl⟩

end OpenapiSqlalchemy
